import Mathlib

/-!
Verification development for the product-adoption-system repository.

The Python sources are shallowly embedded as executable Lean definitions:

* datetimes are modelled at day granularity as integers (`Time := Int`);
  the current instant `datetime.now()` becomes an explicit `now : Time`
  parameter, and `(now - t).days` becomes integer subtraction;
* Python floats (`mrr`, `usage_frequency`, `risk_score`, ...) are modelled
  as exact rationals `ℚ`;
* Python dicts are modelled as insertion-ordered association lists, so
  `dict.values()` iteration order is the list order and lookup is the
  first matching key;
* functions that raise exceptions are modelled with `Except`;
* mutation of `self.memory` is modelled by explicit state passing of a
  `MemoryStore` value.
-/

namespace AdoptionSystem

/-- Day-granular timestamps: number of days since the Unix epoch. -/
abbrev Time := Int

/-- Association-list lookup, mirroring Python `dict.get(k)`. -/
def dictGet {α : Type} : List (String × α) → String → Option α
  | [], _ => none
  | (k2, v) :: rest, k => if k2 = k then some v else dictGet rest k

/-- Association-list update `d[k] = v`, mirroring Python dict assignment:
an existing key keeps its insertion position, a new key is appended. -/
def dictSet {α : Type} : List (String × α) → String → α → List (String × α)
  | [], k, v => [(k, v)]
  | (k2, v2) :: rest, k, v =>
    if k2 = k then (k, v) :: rest else (k2, v2) :: dictSet rest k v

/-- Prefix test on character lists. -/
def isPrefixCharList : List Char → List Char → Bool
  | [], _ => true
  | _ :: _, [] => false
  | a :: as, b :: bs => decide (a = b) && isPrefixCharList as bs

/-- Substring test on character lists: Python `needle in hay`. -/
def containsSubList (needle : List Char) : List Char → Bool
  | [] => needle.isEmpty
  | c :: t => isPrefixCharList needle (c :: t) || containsSubList needle t

/-- Python `needle in hay` for strings. -/
def strContains (hay needle : String) : Bool :=
  containsSubList needle.data hay.data

/-- Python `str.lower()` (ASCII-faithful). -/
def strLower (s : String) : String :=
  ⟨s.data.map Char.toLower⟩

/-- Python `str.upper()` (ASCII-faithful). -/
def strUpper (s : String) : String :=
  ⟨s.data.map Char.toUpper⟩

/-- Two-digit zero padding, as produced by `%m`, `%d`. -/
def padTwo (n : Nat) : String :=
  if n < 10 then "0" ++ toString n else toString n

/-- Round a rational to the nearest integer, ties to even, matching the
rounding used by Python `format` of a float. -/
def roundHalfEven (x : ℚ) : ℤ :=
  let f := x.floor
  let frac := x - f
  if frac < 1/2 then f
  else if 1/2 < frac then f + 1
  else if f % 2 = 0 then f else f + 1

/-- Python `"{:.2f}".format(x)` on an exact rational. -/
def qToFixed2 (x : ℚ) : String :=
  let n := roundHalfEven (x * 100)
  let sign := if n < 0 then "-" else ""
  let m := n.natAbs
  sign ++ toString (m / 100) ++ "." ++ padTwo (m % 100)

/-- Python `"{:.1%}".format(x)` on an exact rational. -/
def qToPercent1 (x : ℚ) : String :=
  let n := roundHalfEven (x * 1000)
  let sign := if n < 0 then "-" else ""
  let m := n.natAbs
  sign ++ toString (m / 10) ++ "." ++ toString (m % 10) ++ "%"

/-- Python `"{:.0f}".format(x)` on an exact rational. -/
def qToFixed0 (x : ℚ) : String :=
  toString (roundHalfEven x)

/-- Civil date (year, month, day) of a day count since 1970-01-01,
proleptic Gregorian calendar. -/
def civilFromDays (z0 : Time) : Int × Nat × Nat :=
  let z := z0 + 719468
  let era := z.fdiv 146097
  let doe := (z - era * 146097).toNat
  let yoe := (doe - doe / 1460 + doe / 36524 - doe / 146096) / 365
  let y : Int := (yoe : Int) + era * 400
  let doy := doe - (365 * yoe + yoe / 4 - yoe / 100)
  let mp := (5 * doy + 2) / 153
  let d := doy - (153 * mp + 2) / 5 + 1
  let m := if mp < 10 then mp + 3 else mp - 9
  (if m ≤ 2 then y + 1 else y, m, d)

/-- Python `strftime("%Y-%m-%d %H:%M")`; the time model is day-granular,
so the clock part is always midnight. -/
def formatTimestamp (t : Time) : String :=
  let c := civilFromDays t
  toString c.1 ++ "-" ++ padTwo c.2.1 ++ "-" ++ padTwo c.2.2 ++ " 00:00"

/-- Feature categories (src/src/data/models.py, FeatureCategory). -/
inductive FeatureCategory where
  | core
  | collaboration
  | analytics
  | integration
  | admin
  | premium
deriving DecidableEq

/-- Churn risk classification (src/src/data/models.py, ChurnRiskLevel). -/
inductive ChurnRiskLevel where
  | low
  | medium
  | high
deriving DecidableEq

/-- Python enum `.value` of a ChurnRiskLevel. -/
def ChurnRiskLevel.value : ChurnRiskLevel → String
  | .low => "low"
  | .medium => "medium"
  | .high => "high"

/-- A product feature (src/src/data/models.py, Feature). -/
structure Feature where
  id : String
  name : String
  category : FeatureCategory
  description : String
  is_premium : Bool := false
  adoption_threshold_days : Int := 30
  usage_frequency_target : ℚ := 1/2
deriving DecidableEq

/-- Usage metrics for a feature by a customer
(src/src/data/models.py, FeatureUsage). -/
structure FeatureUsage where
  feature_id : String
  customer_id : String
  first_used : Option Time
  last_used : Option Time
  total_sessions : Nat := 0
  total_actions : Nat := 0
  days_active : Nat := 0
  usage_frequency : ℚ := 0
deriving DecidableEq

/-- FeatureUsage.is_adopted (src/src/data/models.py lines 52-58). -/
def FeatureUsage.is_adopted (now : Time) (u : FeatureUsage) (feature : Feature) : Bool :=
  match u.first_used with
  | none => false
  | some fu =>
    let days_since_first := now - fu
    decide (days_since_first ≥ feature.adoption_threshold_days) &&
      decide (u.usage_frequency ≥ feature.usage_frequency_target)

/-- Customer profile (src/src/data/models.py, Customer). -/
structure Customer where
  id : String
  name : String
  plan_tier : String
  subscription_start : Time
  mrr : ℚ
  industry : String
  company_size : String
  account_manager : String
  features : List (String × FeatureUsage) := []
deriving DecidableEq

/-- Customer.get_active_features (src/src/data/models.py lines 74-77). -/
def Customer.get_active_features (c : Customer) : List String :=
  (c.features.filter (fun p => decide (0 < p.2.total_actions))).map Prod.fst

/-- Customer.get_adopted_features (src/src/data/models.py lines 79-82). -/
def Customer.get_adopted_features (now : Time) (c : Customer)
    (feature_catalog : List (String × Feature)) : List String :=
  (c.features.filter (fun p =>
    match dictGet feature_catalog p.1 with
    | some f => p.2.is_adopted now f
    | none => false)).map Prod.fst

/-- A structured recommendation (src/src/data/models.py, Recommendation). -/
structure Recommendation where
  feature_id : String
  feature_name : String
  priority : Nat
  reason : String
  suggested_action : String
  expected_impact : String
  confidence : ℚ := 0
deriving DecidableEq

/-- A step in the onboarding playbook (src/src/data/models.py, OnboardingStep). -/
structure OnboardingStep where
  step_number : Nat
  title : String
  description : String
  feature_id : Option String := none
  estimated_time_minutes : Nat := 15
deriving DecidableEq

/-- Churn risk analysis result (src/src/data/models.py, ChurnRiskAssessment). -/
structure ChurnRiskAssessment where
  risk_level : ChurnRiskLevel
  risk_score : ℚ
  signals : List String
  recommended_intervention : String
  urgency_days : Nat
deriving DecidableEq

/-- Complete intelligence output (src/src/data/models.py, CustomerIntelligence). -/
structure CustomerIntelligence where
  customer_id : String
  customer_name : String
  adoption_recommendations : List Recommendation
  onboarding_playbook : List OnboardingStep
  churn_risk : ChurnRiskAssessment
  generated_at : Time
deriving DecidableEq

/-- The data-access collaborator (src/src/tools/data_access.py). The mock
data loaded in `__init__` is abstracted into the two injected tables. -/
structure DataAccessTool where
  customers : List (String × Customer)
  feature_catalog : List (String × Feature)
deriving DecidableEq

/-- DataAccessTool.get_customer (src/src/tools/data_access.py lines 22-24). -/
def DataAccessTool.get_customer (d : DataAccessTool) (customer_id : String) : Option Customer :=
  dictGet d.customers customer_id

/-- DataAccessTool.get_feature (src/src/tools/data_access.py lines 26-28). -/
def DataAccessTool.get_feature (d : DataAccessTool) (feature_id : String) : Option Feature :=
  dictGet d.feature_catalog feature_id

/-- DataAccessTool.get_all_features (src/src/tools/data_access.py lines 30-32). -/
def DataAccessTool.get_all_features (d : DataAccessTool) : List (String × Feature) :=
  d.feature_catalog

/-- Heterogeneous values stored in the customer-context dict. -/
inductive CtxVal where
  | str (s : String)
  | num (q : ℚ)
  | time (t : Time)
deriving DecidableEq

/-- A timestamped churn assessment snapshot, as appended by
MemoryStore.store_churn_assessment. -/
structure AssessmentEntry where
  timestamp : Time
  assessment : ChurnRiskAssessment
deriving DecidableEq

/-- A timestamped recommendations snapshot, as appended by
MemoryStore.store_recommendations. -/
structure RecommendationEntry where
  timestamp : Time
  recommendations : List Recommendation
deriving DecidableEq

/-- The in-memory store (src/src/memory/context.py, MemoryStore). -/
structure MemoryStore where
  customer_contexts : List (String × List (String × CtxVal)) := []
  historical_recommendations : List (String × List RecommendationEntry) := []
  historical_assessments : List (String × List AssessmentEntry) := []
deriving DecidableEq

/-- MemoryStore.store_customer_context (src/src/memory/context.py lines 22-32). -/
def MemoryStore.store_customer_context (m : MemoryStore) (customer_id : String)
    (now : Time) (context : List (String × CtxVal)) : MemoryStore :=
  let ctx := (dictGet m.customer_contexts customer_id).getD []
  let ctx := context.foldl (fun d p => dictSet d p.1 p.2) ctx
  let ctx := dictSet ctx "last_updated" (CtxVal.time now)
  { m with customer_contexts := dictSet m.customer_contexts customer_id ctx }

/-- MemoryStore.store_recommendations (src/src/memory/context.py lines 38-50). -/
def MemoryStore.store_recommendations (m : MemoryStore) (customer_id : String)
    (now : Time) (recommendations : List Recommendation) : MemoryStore :=
  let hist := (dictGet m.historical_recommendations customer_id).getD []
  let hist := hist ++ [{ timestamp := now, recommendations := recommendations }]
  { m with historical_recommendations :=
      dictSet m.historical_recommendations customer_id hist }

/-- MemoryStore.store_churn_assessment (src/src/memory/context.py lines 61-73). -/
def MemoryStore.store_churn_assessment (m : MemoryStore) (customer_id : String)
    (now : Time) (assessment : ChurnRiskAssessment) : MemoryStore :=
  let hist := (dictGet m.historical_assessments customer_id).getD []
  let hist := hist ++ [{ timestamp := now, assessment := assessment }]
  { m with historical_assessments :=
      dictSet m.historical_assessments customer_id hist }

/-- The full stored assessment history for a customer (the
`self._historical_assessments.get(customer_id, [])` lookup). -/
def MemoryStore.stored_assessments (m : MemoryStore) (customer_id : String) :
    List AssessmentEntry :=
  (dictGet m.historical_assessments customer_id).getD []

/-- MemoryStore.get_churn_history (src/src/memory/context.py lines 75-82).
Python `history[-limit:]` is the whole list when `limit = 0` and the
suffix of length at most `limit` otherwise. -/
def MemoryStore.get_churn_history (m : MemoryStore) (customer_id : String)
    (limit : Nat) : List AssessmentEntry :=
  let history := m.stored_assessments customer_id
  if limit = 0 then history else history.drop (history.length - limit)

/-- MemoryStore.get_risk_trend (src/src/memory/context.py lines 84-99).
The `len(history) < 2` early return and the `history[-1]`/`history[-2]`
indexing are rendered together by matching on the reversed slice. -/
def MemoryStore.get_risk_trend (m : MemoryStore) (customer_id : String) :
    Option String :=
  let history := m.get_churn_history customer_id 3
  match history.reverse with
  | recent :: previous :: _ =>
    if recent.assessment.risk_score > previous.assessment.risk_score + 1/10 then
      some "increasing"
    else if recent.assessment.risk_score < previous.assessment.risk_score - 1/10 then
      some "decreasing"
    else
      some "stable"
  | _ => none

/-- AnalysisTool._days_ago_str (src/src/tools/analysis.py lines 262-272). -/
def days_ago_str (now : Time) (date : Option Time) : String :=
  match date with
  | none => "never"
  | some d =>
    let days := now - d
    if days = 0 then "today"
    else if days = 1 then "1 day ago"
    else toString days ++ " days ago"

/-- AnalysisTool._generate_adoption_reason (src/src/tools/analysis.py
lines 96-135). -/
def generate_adoption_reason (da : DataAccessTool) (now : Time) (feature : Feature)
    (customer : Customer) (usage : Option FeatureUsage) (context : String) : String :=
  let days_since_start := now - customer.subscription_start
  let coreNever :=
    "Core feature \x27" ++ feature.name ++ "\x27 has never been used. " ++
    "Customer has been subscribed for " ++ toString days_since_start ++ " days. " ++
    "This is essential for basic product value."
  let fallback :=
    "Feature \x27" ++ feature.name ++ "\x27 aligns with customer\x27s usage patterns."
  let expansionNever :=
    "Premium feature \x27" ++ feature.name ++ "\x27 is available on " ++
    customer.plan_tier ++ " plan " ++ "but unused. Customer has adopted " ++
    toString (customer.get_adopted_features now da.get_all_features).length ++
    " features, " ++ "suggesting readiness for advanced capabilities."
  if context = "core" then
    match usage with
    | none => coreNever
    | some u =>
      if u.total_actions = 0 then coreNever
      else if u.usage_frequency < feature.usage_frequency_target then
        "Core feature \x27" ++ feature.name ++ "\x27 is underutilized. " ++
        "Usage frequency (" ++ qToPercent1 u.usage_frequency ++ ") is below target " ++
        "(" ++ qToPercent1 feature.usage_frequency_target ++ "). " ++
        "Last used " ++ days_ago_str now u.last_used ++ "."
      else fallback
  else if context = "expansion" then
    match usage with
    | none => expansionNever
    | some u =>
      if u.total_actions = 0 then expansionNever
      else
        "Premium feature \x27" ++ feature.name ++ "\x27 shows early interest " ++
        "(" ++ toString u.total_actions ++ " actions) but not fully adopted. " ++
        "Accelerating adoption could drive expansion."
  else fallback

/-- AnalysisTool._suggest_action (src/src/tools/analysis.py lines 137-160). -/
def suggest_action (now : Time) (feature : Feature) (customer : Customer)
    (usage : Option FeatureUsage) : String :=
  let onboard :=
    "Schedule 30-min onboarding session with " ++ customer.account_manager ++
    " " ++ "to demonstrate " ++ feature.name ++ " and set up initial workflow."
  match usage with
  | none => onboard
  | some u =>
    if u.total_actions = 0 then onboard
    else
      let days_since_last : Int :=
        match u.last_used with
        | some lu => now - lu
        | none => 999
      if days_since_last > 30 then
        "Send re-engagement email with use case examples for " ++ feature.name ++
        ". " ++ "Follow up with quick check-in call to address barriers."
      else
        "Provide advanced tips and best practices for " ++ feature.name ++
        " " ++ "via in-app guidance or documentation link."

/-- The `core_features` local of AnalysisTool (src/src/tools/analysis.py
lines 38-41 and 175-178): catalog values with category CORE, in catalog
iteration order. -/
def core_features_of (da : DataAccessTool) : List Feature :=
  (da.get_all_features.map Prod.snd).filter (fun f => decide (f.category = .core))

/-- The unsorted `recommendations` list built by
AnalysisTool.analyze_feature_adoption before the final sort and
truncation (src/src/tools/analysis.py lines 32-91): core-feature gap
recommendations in catalog order, then premium opportunity
recommendations in catalog order. -/
def discovered_recommendations (da : DataAccessTool) (now : Time)
    (customer : Customer) : List Recommendation :=
  let feature_catalog := da.get_all_features
  let adopted_features := customer.get_adopted_features now feature_catalog
  let active_features := customer.get_active_features
  let core_features := core_features_of da
  let available_premium :=
    (feature_catalog.map Prod.snd).filter (fun f =>
      f.is_premium &&
        decide (customer.plan_tier = "professional" ∨ customer.plan_tier = "enterprise"))
  let coreRecs :=
    (core_features.filter (fun f => !(decide (f.id ∈ adopted_features)))).map
      (fun feature =>
        let usage := dictGet customer.features feature.id
        let priority := if feature.id ∉ active_features then 1 else 2
        { feature_id := feature.id
          feature_name := feature.name
          priority := priority
          reason := generate_adoption_reason da now feature customer usage "core"
          suggested_action := suggest_action now feature customer usage
          expected_impact := "Increase core product engagement and reduce churn risk"
          confidence := if priority = 1 then 17/20 else 13/20 })
  let premiumRecs :=
    (available_premium.filter (fun f =>
        !(decide (f.id ∈ adopted_features)) && decide (3 ≤ adopted_features.length))).map
      (fun feature =>
        let usage := dictGet customer.features feature.id
        { feature_id := feature.id
          feature_name := feature.name
          priority := 3
          reason := generate_adoption_reason da now feature customer usage "expansion"
          suggested_action := suggest_action now feature customer usage
          expected_impact :=
            "Potential expansion revenue: $" ++ qToFixed0 (customer.mrr * (15/100)) ++
            "/month"
          confidence := 3/5 })
  coreRecs ++ premiumRecs

/-- AnalysisTool.analyze_feature_adoption (src/src/tools/analysis.py
lines 24-94): stable ascending sort by priority, then the first 5. -/
def analyze_feature_adoption (da : DataAccessTool) (now : Time)
    (customer : Customer) : List Recommendation :=
  ((discovered_recommendations da now customer).mergeSort
    (fun a b => decide (a.priority ≤ b.priority))).take 5

/-- The `adopted_core` local of assess_churn_risk (src/src/tools/analysis.py
line 179). -/
def adopted_core_of (da : DataAccessTool) (now : Time) (c : Customer) : List Feature :=
  (core_features_of da).filter (fun f =>
    decide (f.id ∈ c.get_adopted_features now da.get_all_features))

/-- The `adoption_rate` local of assess_churn_risk (src/src/tools/analysis.py
line 180): 0 when there are no core features. -/
def core_adoption_rate (da : DataAccessTool) (now : Time) (c : Customer) : ℚ :=
  if (core_features_of da).isEmpty then 0
  else ((adopted_core_of da now c).length : ℚ) / ((core_features_of da).length : ℚ)

/-- The `recent_usage` / `stale_features` counting loop of assess_churn_risk
(src/src/tools/analysis.py lines 188-197): entries with no last_used are
skipped; a used-within-30-days entry counts as recent, a
more-than-60-days-stale entry counts as stale, anything between counts
as neither. -/
def recent_stale_counts (now : Time) (feats : List (String × FeatureUsage)) :
    Nat × Nat :=
  feats.foldl
    (fun acc p =>
      match p.2.last_used with
      | none => acc
      | some lu =>
        let days_since_last := now - lu
        if days_since_last ≤ 30 then (acc.1 + 1, acc.2)
        else if days_since_last > 60 then (acc.1, acc.2 + 1)
        else acc)
    (0, 0)

/-- The `premium_features` local of assess_churn_risk
(src/src/tools/analysis.py lines 209-212): premium catalog features the
customer has adopted. -/
def premium_adopted_of (da : DataAccessTool) (now : Time) (c : Customer) :
    List Feature :=
  (da.get_all_features.map Prod.snd).filter (fun f =>
    f.is_premium && decide (f.id ∈ c.get_adopted_features now da.get_all_features))

/-- Signal 1 condition of assess_churn_risk (src/src/tools/analysis.py
line 182): low core feature adoption. -/
def low_core_adoption (da : DataAccessTool) (now : Time) (c : Customer) : Prop :=
  core_adoption_rate da now c < 1/2

/-- Signal 2a condition of assess_churn_risk (src/src/tools/analysis.py
line 199): fewer than 2 features used in the last 30 days. -/
def low_recent_activity (now : Time) (c : Customer) : Prop :=
  (recent_stale_counts now c.features).1 < 2

/-- Signal 2b condition of assess_churn_risk (src/src/tools/analysis.py
line 203): more than 3 features unused for over 60 days. -/
def many_stale_features (now : Time) (c : Customer) : Prop :=
  (recent_stale_counts now c.features).2 > 3

/-- Signal 3 condition of assess_churn_risk (src/src/tools/analysis.py
lines 208-213): premium plan with no adopted premium features. -/
def premium_plan_unused (da : DataAccessTool) (now : Time) (c : Customer) : Prop :=
  (c.plan_tier = "professional" ∨ c.plan_tier = "enterprise") ∧
    premium_adopted_of da now c = []

/-- Signal 4 condition of assess_churn_risk (src/src/tools/analysis.py
line 220): a customer younger than 90 days with low early adoption. -/
def new_customer_low_adoption (da : DataAccessTool) (now : Time) (c : Customer) : Prop :=
  now - c.subscription_start < 90 ∧ core_adoption_rate da now c < 3/10

instance (da : DataAccessTool) (now : Time) (c : Customer) :
    Decidable (low_core_adoption da now c) :=
  inferInstanceAs (Decidable (core_adoption_rate da now c < 1/2))

instance (now : Time) (c : Customer) : Decidable (low_recent_activity now c) :=
  inferInstanceAs (Decidable ((recent_stale_counts now c.features).1 < 2))

instance (now : Time) (c : Customer) : Decidable (many_stale_features now c) :=
  inferInstanceAs (Decidable ((recent_stale_counts now c.features).2 > 3))

instance (da : DataAccessTool) (now : Time) (c : Customer) :
    Decidable (premium_plan_unused da now c) :=
  inferInstanceAs (Decidable (_ ∧ _))

instance (da : DataAccessTool) (now : Time) (c : Customer) :
    Decidable (new_customer_low_adoption da now c) :=
  inferInstanceAs (Decidable (_ ∧ _))

/-- AnalysisTool.assess_churn_risk (src/src/tools/analysis.py lines 162-260).
The imperative signal/score accumulation is rendered as one append /
addend per signal, in program order. -/
def assess_churn_risk (da : DataAccessTool) (now : Time) (customer : Customer) :
    ChurnRiskAssessment :=
  let days_since_start := now - customer.subscription_start
  let adopted_core := adopted_core_of da now customer
  let core_features := core_features_of da
  let sig1 : List String :=
    if low_core_adoption da now customer then
      ["Low core feature adoption (" ++ toString adopted_core.length ++ "/" ++
        toString core_features.length ++ " core features adopted)"]
    else []
  let sc1 : ℚ := if low_core_adoption da now customer then 3/10 else 0
  let counts := recent_stale_counts now customer.features
  let recent_usage := counts.1
  let stale_features := counts.2
  let sig2 : List String :=
    if low_recent_activity now customer then
      ["Low recent activity (" ++ toString recent_usage ++
        " features used in last 30 days)"]
    else []
  let sc2 : ℚ := if low_recent_activity now customer then 1/4 else 0
  let sig3 : List String :=
    if many_stale_features now customer then
      ["Multiple features unused for 60+ days (" ++ toString stale_features ++
        " features)"]
    else []
  let sc3 : ℚ := if many_stale_features now customer then 1/5 else 0
  let sig4 : List String :=
    if premium_plan_unused da now customer then
      ["Premium plan (" ++ customer.plan_tier ++ ") but no premium features adopted"]
    else []
  let sc4 : ℚ := if premium_plan_unused da now customer then 3/20 else 0
  let sig5 : List String :=
    if new_customer_low_adoption da now customer then
      ["New customer (" ++ toString days_since_start ++ " days) with low early adoption"]
    else []
  let sc5 : ℚ := if new_customer_low_adoption da now customer then 1/10 else 0
  let risk_score := sc1 + sc2 + sc3 + sc4 + sc5
  let levels : ChurnRiskLevel × Nat × String :=
    if risk_score ≥ 3/5 then
      (.high, 7,
        "Immediate intervention required. Schedule executive business review " ++
        "with " ++ customer.account_manager ++ " within " ++ toString (7 : Nat) ++
        " days. " ++ "Focus on core feature adoption and value realization.")
    else if risk_score ≥ 7/20 then
      (.medium, 30,
        "Proactive engagement recommended. Schedule quarterly business review " ++
        "and create adoption playbook for top 3 core features. " ++
        "Monitor usage trends weekly.")
    else
      (.low, 90,
        "Maintain regular check-ins. Continue expansion conversations " ++
        "around premium features and advanced use cases.")
  let signals := sig1 ++ sig2 ++ sig3 ++ sig4 ++ sig5
  let signals :=
    if signals.isEmpty then ["No significant risk signals detected"] else signals
  { risk_level := levels.1
    risk_score := min 1 risk_score
    signals := signals
    recommended_intervention := levels.2.2
    urgency_days := levels.2.1 }

/-- AdoptionCopilotAgent._generate_onboarding_playbook (src/src/agent/core.py
lines 93-152). -/
def generate_onboarding_playbook (da : DataAccessTool) (customer : Customer)
    (recommendations : List Recommendation) : List OnboardingStep :=
  match recommendations with
  | [] =>
    [{ step_number := 1
       title := "Explore Core Dashboard"
       description := "Get familiar with the main analytics dashboard and key metrics"
       feature_id := some "feat_core_dashboard"
       estimated_time_minutes := 15 }]
  | top_recommendation :: rest =>
    let playbook : List OnboardingStep :=
      match da.get_feature top_recommendation.feature_id with
      | some feature =>
        [{ step_number := 1
           title := "Set up " ++ feature.name
           description := top_recommendation.suggested_action
           feature_id := some feature.id
           estimated_time_minutes := 30 }]
      | none => []
    let playbook : List OnboardingStep :=
      match rest with
      | second_rec :: _ =>
        match da.get_feature second_rec.feature_id with
        | some second_feature =>
          playbook ++
            [{ step_number := 2
               title := "Explore " ++ second_feature.name
               description := second_rec.suggested_action
               feature_id := some second_feature.id
               estimated_time_minutes := 20 }]
        | none => playbook
      | [] => playbook
    playbook ++
      [{ step_number := playbook.length + 1
         title := "Schedule Success Review"
         description :=
           "Book a 30-minute call with " ++ customer.account_manager ++
           " " ++ "to review progress and discuss next steps"
         feature_id := none
         estimated_time_minutes := 30 }]

/-- AdoptionCopilotAgent.analyze_customer (src/src/agent/core.py lines 41-91).
The ValueError raised for an unknown customer becomes `Except.error`; the
mutation of `self.memory` becomes the returned MemoryStore. -/
def analyze_customer (da : DataAccessTool) (mem : MemoryStore) (now : Time)
    (customer_id : String) : Except String (CustomerIntelligence × MemoryStore) :=
  match da.get_customer customer_id with
  | none => .error ("Customer " ++ customer_id ++ " not found")
  | some customer =>
    let mem := mem.store_customer_context customer_id now
      [("plan_tier", .str customer.plan_tier),
       ("mrr", .num customer.mrr),
       ("industry", .str customer.industry),
       ("company_size", .str customer.company_size),
       ("account_manager", .str customer.account_manager)]
    let recommendations := analyze_feature_adoption da now customer
    let mem := mem.store_recommendations customer_id now recommendations
    let churn_risk := assess_churn_risk da now customer
    let mem := mem.store_churn_assessment customer_id now churn_risk
    let onboarding_playbook := generate_onboarding_playbook da customer recommendations
    .ok
      ({ customer_id := customer.id
         customer_name := customer.name
         adoption_recommendations := recommendations.take 3
         onboarding_playbook := onboarding_playbook
         churn_risk := churn_risk
         generated_at := now },
       mem)

/-- AdoptionCopilotAgent._format_intelligence_summary (src/src/agent/core.py
lines 208-216). -/
def format_intelligence_summary (intelligence : CustomerIntelligence) : String :=
  "Customer Intelligence for " ++ intelligence.customer_name ++ ":\n\n" ++
  "Churn Risk: " ++ strUpper intelligence.churn_risk.risk_level.value ++ "\n" ++
  "Top Recommendations: " ++
  toString intelligence.adoption_recommendations.length ++ "\n" ++
  "Onboarding Steps: " ++ toString intelligence.onboarding_playbook.length ++ "\n" ++
  "Generated: " ++ formatTimestamp intelligence.generated_at

/-- AdoptionCopilotAgent.answer_question (src/src/agent/core.py lines 154-206).
An unknown customer returns the not-found message as an ordinary value;
only exceptions propagating out of `analyze_customer` in the final branch
become `Except.error`. -/
def answer_question (da : DataAccessTool) (mem : MemoryStore) (now : Time)
    (customer_id : String) (question : String) :
    Except String (String × MemoryStore) :=
  match da.get_customer customer_id with
  | none => .ok ("Customer " ++ customer_id ++ " not found.", mem)
  | some customer =>
    let question_lower := strLower question
    if strContains question_lower "churn" || strContains question_lower "risk" then
      let assessment := assess_churn_risk da now customer
      let trend := mem.get_risk_trend customer_id
      let trend_str :=
        match trend with
        | some t => " (trend: " ++ t ++ ")"
        | none => ""
      .ok
        ("Churn Risk: " ++ strUpper assessment.risk_level.value ++ " " ++
         "(score: " ++ qToFixed2 assessment.risk_score ++ ")" ++ trend_str ++ "\n\n" ++
         "Signals:\n" ++
         String.intercalate "\n" (assessment.signals.map (fun s => "  - " ++ s)) ++
         "\n\n" ++ "Intervention: " ++ assessment.recommended_intervention,
         mem)
    else if strContains question_lower "adopt" || strContains question_lower "feature" then
      let recommendations := analyze_feature_adoption da now customer
      if recommendations.isEmpty then
        .ok ("No adoption recommendations at this time.", mem)
      else
        let body := String.join
          ((List.enumFrom 1 (recommendations.take 3)).map (fun p =>
            toString p.1 ++ ". " ++ p.2.feature_name ++
            " (Priority: " ++ toString p.2.priority ++ ")\n" ++
            "   Reason: " ++ p.2.reason ++ "\n" ++
            "   Action: " ++ p.2.suggested_action ++ "\n\n"))
        .ok ("Top Adoption Recommendations:\n\n" ++ body, mem)
    else if strContains question_lower "using" || strContains question_lower "usage" then
      let adopted := customer.get_adopted_features now da.get_all_features
      let active := customer.get_active_features
      .ok
        ("Customer has " ++ toString adopted.length ++ " adopted features and " ++
         toString active.length ++ " active features.\n" ++
         "Adopted: " ++ String.intercalate ", " (adopted.take 5) ++
         (if adopted.length > 5 then "..." else ""),
         mem)
    else
      match analyze_customer da mem now customer_id with
      | .error e => .error e
      | .ok (intelligence, mem2) => .ok (format_intelligence_summary intelligence, mem2)

/-- The WHY keyword list of classify_response_intent
(src/run_demo.py lines 944-946). -/
def why_keywords : List String :=
  ["why", "how come", "reason", "cause", "because", "explain",
   "what\x27s wrong", "what\x27s the problem", "how engaged",
   "why is", "why are", "why do", "why does"]

/-- The WHY synonym list of classify_response_intent
(src/run_demo.py line 947). -/
def why_synonyms : List String :=
  ["indicating", "suggesting", "meaning", "implication"]

/-- The ACTION keyword list of classify_response_intent
(src/run_demo.py lines 953-955). -/
def action_keywords : List String :=
  ["should", "what to do", "recommend", "next step", "action",
   "pitch", "focus on", "prioritize", "do this week", "suggest",
   "how to", "what should", "what can", "steps", "playbook"]

/-- The WHAT keyword list of classify_response_intent
(src/run_demo.py lines 961-963). -/
def what_keywords : List String :=
  ["what is", "what are", "what\x27s", "how many", "how much",
   "show me", "tell me", "list", "status", "current", "is",
   "are", "has", "have", "using", "used"]

/-- classify_response_intent (src/run_demo.py lines 933-973). -/
def classify_response_intent (question : String) : String × String :=
  let question_lower := strLower question
  if why_keywords.any (fun kw => strContains question_lower kw) then
    ("WHY", "question asks \x27why\x27 or seeks explanation")
  else if action_keywords.any (fun kw => strContains question_lower kw) then
    ("ACTION", "question asks for recommendations or actions")
  else if what_keywords.any (fun kw => strContains question_lower kw) then
    ("WHAT", "question asks for factual information")
  else if why_synonyms.any (fun syn => strContains question_lower syn) then
    ("WHY", "question contains interpretive language")
  else
    ("WHY", "ambiguous question, defaulting to explanatory response")

/-- Contiguity of playbook step numbering: step k sits in position k,
starting at 1. -/
def steps_contiguous (pb : List OnboardingStep) : Prop :=
  pb.map (fun s => s.step_number) = List.range' 1 pb.length

/-- Concrete core feature used by the test fixtures below. -/
def featAlpha : Feature :=
  { id := "fa", name := "Alpha", category := .core, description := "a" }

/-- Concrete core feature used by the test fixtures below. -/
def featBeta : Feature :=
  { id := "fb", name := "Beta", category := .core, description := "b" }

/-- A usage record meeting the adoption criteria, recently active at
day 100. -/
def usageFresh (fid : String) : FeatureUsage :=
  { feature_id := fid, customer_id := "c1", first_used := some 0,
    last_used := some 95, total_sessions := 10, total_actions := 50,
    days_active := 40, usage_frequency := 9/10 }

/-- A customer who, at day 100, has adopted and recently used both core
features: no churn signal fires. -/
def custHealthy : Customer :=
  { id := "c1", name := "Acme", plan_tier := "basic", subscription_start := 0,
    mrr := 500, industry := "tech", company_size := "50", account_manager := "AM",
    features := [("fa", usageFresh "fa"), ("fb", usageFresh "fb")] }

/-- A data-access collaborator with one customer and two core features. -/
def daTwoCore : DataAccessTool :=
  { customers := [("c1", custHealthy)],
    feature_catalog := [("fa", featAlpha), ("fb", featBeta)] }

/-- A data-access collaborator whose catalog resolves "fb" but not "fa". -/
def daOnlyBeta : DataAccessTool :=
  { customers := [], feature_catalog := [("fb", featBeta)] }

/-- A recommendation whose feature id is "fa". -/
def recAlphaRec : Recommendation :=
  { feature_id := "fa", feature_name := "Alpha", priority := 1, reason := "r1",
    suggested_action := "a1", expected_impact := "e1", confidence := 0 }

/-- A recommendation whose feature id is "fb". -/
def recBetaRec : Recommendation :=
  { feature_id := "fb", feature_name := "Beta", priority := 2, reason := "r2",
    suggested_action := "a2", expected_impact := "e2", confidence := 0 }

/-- A usage record last used 45 days before day 100: more than 30 but at
most 60 days in the past. -/
def usageGap : FeatureUsage :=
  { feature_id := "fg", customer_id := "c1", first_used := some 0,
    last_used := some 55, total_sessions := 5, total_actions := 5,
    days_active := 5, usage_frequency := 1/10 }

/-- A churn assessment snapshot with the given risk score. -/
def assessSnapshot (s : ℚ) : ChurnRiskAssessment :=
  { risk_level := .low, risk_score := s, signals := ["s"],
    recommended_intervention := "i", urgency_days := 90 }

/-- A memory store holding two assessment snapshots for customer "c1",
with risk scores 0.2 then 0.4. -/
def memTwoSnaps : MemoryStore :=
  { historical_assessments :=
      [("c1", [{ timestamp := 1, assessment := assessSnapshot (1/5) },
               { timestamp := 2, assessment := assessSnapshot (2/5) }])] }

open List

/-- Helper: the adopted-feature ids of the healthy fixture customer. -/
theorem custHealthy_adopted :
    Customer.get_adopted_features 100 custHealthy daTwoCore.get_all_features =
      ["fa", "fb"] := by
  simp [Customer.get_adopted_features, FeatureUsage.is_adopted, dictGet,
    DataAccessTool.get_all_features, daTwoCore, custHealthy, usageFresh,
    featAlpha, featBeta, List.filter_cons]
  norm_num

/-- Helper: the healthy fixture customer has full core adoption. -/
theorem custHealthy_rate : core_adoption_rate daTwoCore 100 custHealthy = 1 := by
  rw [core_adoption_rate, adopted_core_of, custHealthy_adopted]
  simp [core_features_of, DataAccessTool.get_all_features, daTwoCore, featAlpha,
    featBeta, List.filter_cons]

/-- Helper: the healthy fixture customer has 2 recent and 0 stale features. -/
theorem custHealthy_counts :
    recent_stale_counts 100 custHealthy.features = (2, 0) := by
  simp [recent_stale_counts, custHealthy, usageFresh]

/-- Helper: signal 1 does not fire for the healthy fixture customer. -/
theorem custHealthy_calm1 : ¬ low_core_adoption daTwoCore 100 custHealthy := by
  simp [low_core_adoption, custHealthy_rate]
  norm_num

/-- Helper: signal 2a does not fire for the healthy fixture customer. -/
theorem custHealthy_calm2 : ¬ low_recent_activity 100 custHealthy := by
  simp [low_recent_activity, custHealthy_counts]

/-- Helper: signal 2b does not fire for the healthy fixture customer. -/
theorem custHealthy_calm3 : ¬ many_stale_features 100 custHealthy := by
  simp [many_stale_features, custHealthy_counts]

/-- Helper: signal 3 does not fire for the healthy fixture customer. -/
theorem custHealthy_calm4 : ¬ premium_plan_unused daTwoCore 100 custHealthy := by
  simp [premium_plan_unused, custHealthy]

/-- Helper: signal 4 does not fire for the healthy fixture customer. -/
theorem custHealthy_calm5 : ¬ new_customer_low_adoption daTwoCore 100 custHealthy := by
  simp [new_customer_low_adoption, custHealthy_rate, custHealthy]

/-- Helper: when no signal condition holds, the signals list of
assess_churn_risk is exactly the sentinel singleton. -/
theorem assess_churn_risk_signals_of_calm (da : DataAccessTool) (now : Time)
    (c : Customer)
    (h1 : ¬ low_core_adoption da now c) (h2 : ¬ low_recent_activity now c)
    (h3 : ¬ many_stale_features now c) (h4 : ¬ premium_plan_unused da now c)
    (h5 : ¬ new_customer_low_adoption da now c) :
    (assess_churn_risk da now c).signals =
      ["No significant risk signals detected"] := by
  unfold assess_churn_risk
  dsimp only
  rw [if_neg h1, if_neg h2, if_neg h3, if_neg h4, if_neg h5]
  simp

/-- C1: assess_churn_risk computes the risk score additively from exactly
the five independent signal conditions with increments 0.30, 0.25, 0.20,
0.15 and 0.10, and maps the resulting score to the risk level and
urgency: score at least 0.6 gives high with urgency 7 days, at least
0.35 gives medium with urgency 30 days, otherwise low with urgency
90 days. -/
theorem assess_churn_risk_five_signal_additive_score (da : DataAccessTool)
    (now : Time) (c : Customer) :
    (assess_churn_risk da now c).risk_score =
      (if low_core_adoption da now c then (3:ℚ)/10 else 0) +
      (if low_recent_activity now c then (1:ℚ)/4 else 0) +
      (if many_stale_features now c then (1:ℚ)/5 else 0) +
      (if premium_plan_unused da now c then (3:ℚ)/20 else 0) +
      (if new_customer_low_adoption da now c then (1:ℚ)/10 else 0) ∧
    (assess_churn_risk da now c).risk_level =
      (if (assess_churn_risk da now c).risk_score ≥ 3/5 then .high
       else if (assess_churn_risk da now c).risk_score ≥ 7/20 then .medium
       else .low) ∧
    (assess_churn_risk da now c).urgency_days =
      (if (assess_churn_risk da now c).risk_score ≥ 3/5 then 7
       else if (assess_churn_risk da now c).risk_score ≥ 7/20 then 30
       else 90) := by
  have hle : (if low_core_adoption da now c then (3:ℚ)/10 else 0) +
      (if low_recent_activity now c then (1:ℚ)/4 else 0) +
      (if many_stale_features now c then (1:ℚ)/5 else 0) +
      (if premium_plan_unused da now c then (3:ℚ)/20 else 0) +
      (if new_customer_low_adoption da now c then (1:ℚ)/10 else 0) ≤ 1 := by
    split_ifs <;> norm_num
  unfold assess_churn_risk
  dsimp only
  rw [min_eq_right hle]
  split_ifs <;> exact ⟨rfl, rfl, rfl⟩

/-- C2: the risk_score returned by assess_churn_risk always lies in the
closed interval from 0 to 1, however many signals fire. -/
theorem assess_churn_risk_score_in_unit_interval (da : DataAccessTool)
    (now : Time) (c : Customer) :
    0 ≤ (assess_churn_risk da now c).risk_score ∧
    (assess_churn_risk da now c).risk_score ≤ 1 := by
  unfold assess_churn_risk
  dsimp only
  constructor
  · exact le_min (by norm_num) (by split_ifs <;> norm_num)
  · exact min_le_left _ _

/-- C3: analyze_feature_adoption returns at most 5 recommendations, the
returned list is sorted by non-decreasing priority, and for every
priority value the equal-priority recommendations form a prefix of the
equal-priority recommendations of the discovery list (core-feature
iteration before premium-feature iteration), i.e. ties keep discovery
order. -/
theorem analyze_feature_adoption_top5_sorted_stable (da : DataAccessTool)
    (now : Time) (c : Customer) :
    (analyze_feature_adoption da now c).length ≤ 5 ∧
    (analyze_feature_adoption da now c).Pairwise
      (fun a b => a.priority ≤ b.priority) ∧
    ∀ p : Nat,
      (analyze_feature_adoption da now c).filter (fun r => decide (r.priority = p)) <+:
        (discovered_recommendations da now c).filter
          (fun r => decide (r.priority = p)) := by
  set l := discovered_recommendations da now c with hl
  set le := fun a b : Recommendation => decide (a.priority ≤ b.priority) with hle
  have htrans : ∀ a b c' : Recommendation, le a b → le b c' → le a c' := by
    intro a b c' hab hbc
    simp only [hle, decide_eq_true_eq] at *
    omega
  have htotal : ∀ a b : Recommendation, le a b || le b a := by
    intro a b
    simp only [hle, Bool.or_eq_true, decide_eq_true_eq]
    omega
  refine ⟨?_, ?_, ?_⟩
  · show ((l.mergeSort le).take 5).length ≤ 5
    simp [List.length_take]
  · show ((l.mergeSort le).take 5).Pairwise (fun a b => a.priority ≤ b.priority)
    have hs := List.sorted_mergeSort htrans htotal l
    have hsub : (l.mergeSort le).take 5 <+ l.mergeSort le := List.take_sublist 5 _
    exact ((hs.sublist hsub).imp (by simp only [hle, decide_eq_true_eq]; exact fun h => h))
  · intro p
    have feq : ∀ a b : Recommendation,
        (fun r => decide (r.priority = p)) a → (fun r => decide (r.priority = p)) b →
        le a b := by
      intro a b ha hb
      simp only [decide_eq_true_eq] at ha hb
      simp only [hle, decide_eq_true_eq]
      omega
    have hpw : (l.filter (fun r => decide (r.priority = p))).Pairwise
        (fun a b => le a b) := by
      apply List.pairwise_of_forall_mem_list
      intro a ha b hb
      exact feq a b (List.mem_filter.mp ha).2 (List.mem_filter.mp hb).2
    have hsubl : l.filter (fun r => decide (r.priority = p)) <+ l :=
      List.filter_sublist l
    have h1 : l.filter (fun r => decide (r.priority = p)) <+ l.mergeSort le :=
      List.sublist_mergeSort htrans htotal hpw hsubl
    have h2 : (l.filter (fun r => decide (r.priority = p))).filter
        (fun r => decide (r.priority = p)) <+
        (l.mergeSort le).filter (fun r => decide (r.priority = p)) :=
      h1.filter _
    rw [List.filter_eq_self.mpr (fun a ha => (List.mem_filter.mp ha).2)] at h2
    have hperm : (l.mergeSort le).filter (fun r => decide (r.priority = p)) ~
        l.filter (fun r => decide (r.priority = p)) :=
      (List.mergeSort_perm l le).filter _
    have heq : l.filter (fun r => decide (r.priority = p)) =
        (l.mergeSort le).filter (fun r => decide (r.priority = p)) :=
      h2.eq_of_length hperm.length_eq.symm
    have htake : ((l.mergeSort le).take 5).filter (fun r => decide (r.priority = p)) <+:
        (l.mergeSort le).filter (fun r => decide (r.priority = p)) :=
      (List.take_prefix 5 _).filter _
    rw [← heq] at htake
    exact htake

/-- C4 counterexample: with a catalog that resolves the second
recommendation's feature id but not the first, the playbook's step
numbers are [2, 2], refuting contiguous numbering from 1 for every
recommendations list. -/
theorem generate_onboarding_playbook_noncontiguous_cex :
    (generate_onboarding_playbook daOnlyBeta custHealthy
      [recAlphaRec, recBetaRec]).map (fun s => s.step_number) = [2, 2] ∧
    ¬ steps_contiguous (generate_onboarding_playbook daOnlyBeta custHealthy
      [recAlphaRec, recBetaRec]) := by
  constructor
  · simp [generate_onboarding_playbook, DataAccessTool.get_feature, dictGet,
      daOnlyBeta, recAlphaRec, recBetaRec]
  · simp [generate_onboarding_playbook, DataAccessTool.get_feature, dictGet,
      daOnlyBeta, recAlphaRec, recBetaRec, steps_contiguous, List.range']

/-- C4 (amended): provided it is not the case that the first
recommendation's feature id fails to resolve while the second's
resolves, the playbook's step numbers are contiguous starting at 1; with
an empty recommendations list it returns exactly one step numbered 1. -/
theorem generate_onboarding_playbook_contiguous (da : DataAccessTool)
    (c : Customer) (recs : List Recommendation)
    (h : ∀ r1 r2 rest, recs = r1 :: r2 :: rest →
      da.get_feature r1.feature_id = none → da.get_feature r2.feature_id = none) :
    steps_contiguous (generate_onboarding_playbook da c recs) ∧
    (recs = [] →
      (generate_onboarding_playbook da c recs).map (fun s => s.step_number) = [1]) := by
  rcases recs with _ | ⟨r1, _ | ⟨r2, rest⟩⟩
  · constructor
    · simp [generate_onboarding_playbook, steps_contiguous, List.range']
    · intro
      simp [generate_onboarding_playbook]
  · constructor
    · rcases hf : da.get_feature r1.feature_id with _ | f
      · simp [generate_onboarding_playbook, hf, steps_contiguous, List.range']
      · simp [generate_onboarding_playbook, hf, steps_contiguous, List.range']
    · intro heq
      exact absurd heq (by simp)
  · constructor
    · rcases hf1 : da.get_feature r1.feature_id with _ | f1
      · have hf2 := h r1 r2 rest rfl hf1
        simp [generate_onboarding_playbook, hf1, hf2, steps_contiguous, List.range']
      · rcases hf2 : da.get_feature r2.feature_id with _ | f2
        · simp [generate_onboarding_playbook, hf1, hf2, steps_contiguous, List.range']
        · simp [generate_onboarding_playbook, hf1, hf2, steps_contiguous, List.range']
    · intro heq
      exact absurd heq (by simp)

/-- C4 witness: the amended theorem applied to a fully resolving
two-recommendation list and to the empty list. -/
theorem generate_onboarding_playbook_contiguous_witness :
    steps_contiguous (generate_onboarding_playbook daTwoCore custHealthy
      [recAlphaRec, recBetaRec]) ∧
    (generate_onboarding_playbook daTwoCore custHealthy []).map
      (fun s => s.step_number) = [1] := by
  constructor
  · refine (generate_onboarding_playbook_contiguous daTwoCore custHealthy
      [recAlphaRec, recBetaRec] ?_).1
    intro r1 r2 rest heq hnone
    cases heq
    simp [DataAccessTool.get_feature, dictGet, daTwoCore, recAlphaRec] at hnone
  · refine (generate_onboarding_playbook_contiguous daTwoCore custHealthy [] ?_).2 rfl
    intro r1 r2 rest heq
    exact absurd heq (by simp)

/-- C5: classify_response_intent checks its keyword sets in the fixed
order WHY, then ACTION, then WHAT: a WHY-keyword match wins outright
(also over simultaneous ACTION matches), ACTION is only reached when no
WHY keyword matches, WHAT only when neither matches, and when none of
the three keyword sets matches the result defaults to WHY, with the
low-confidence "ambiguous question" rationale when the WHY synonyms also
miss. -/
theorem classify_response_intent_order (q : String) :
    (why_keywords.any (fun kw => strContains (strLower q) kw) = true →
      classify_response_intent q =
        ("WHY", "question asks \x27why\x27 or seeks explanation")) ∧
    (why_keywords.any (fun kw => strContains (strLower q) kw) = false →
      action_keywords.any (fun kw => strContains (strLower q) kw) = true →
      classify_response_intent q =
        ("ACTION", "question asks for recommendations or actions")) ∧
    (why_keywords.any (fun kw => strContains (strLower q) kw) = false →
      action_keywords.any (fun kw => strContains (strLower q) kw) = false →
      what_keywords.any (fun kw => strContains (strLower q) kw) = true →
      classify_response_intent q =
        ("WHAT", "question asks for factual information")) ∧
    (why_keywords.any (fun kw => strContains (strLower q) kw) = false →
      action_keywords.any (fun kw => strContains (strLower q) kw) = false →
      what_keywords.any (fun kw => strContains (strLower q) kw) = false →
      (classify_response_intent q).1 = "WHY") ∧
    (why_keywords.any (fun kw => strContains (strLower q) kw) = false →
      action_keywords.any (fun kw => strContains (strLower q) kw) = false →
      what_keywords.any (fun kw => strContains (strLower q) kw) = false →
      why_synonyms.any (fun syn => strContains (strLower q) syn) = false →
      classify_response_intent q =
        ("WHY", "ambiguous question, defaulting to explanatory response")) := by
  refine ⟨?_, ?_, ?_, ?_, ?_⟩
  · intro h1
    simp [classify_response_intent, h1]
  · intro h1 h2
    simp [classify_response_intent, h1, h2]
  · intro h1 h2 h3
    simp [classify_response_intent, h1, h2, h3]
  · intro h1 h2 h3
    rcases h4 : why_synonyms.any (fun syn => strContains (strLower q) syn) <;>
      simp [classify_response_intent, h1, h2, h3, h4]
  · intro h1 h2 h3 h4
    simp [classify_response_intent, h1, h2, h3, h4]

/-- C5 witness: the classifier theorem applied to concrete questions
exercising the WHY, ACTION, WHAT and default branches. -/
theorem classify_response_intent_order_witness :
    classify_response_intent "Why is churn so high?" =
      ("WHY", "question asks \x27why\x27 or seeks explanation") ∧
    classify_response_intent "should we upsell them" =
      ("ACTION", "question asks for recommendations or actions") ∧
    classify_response_intent "list adopted" =
      ("WHAT", "question asks for factual information") ∧
    classify_response_intent "zzz" =
      ("WHY", "ambiguous question, defaulting to explanatory response") := by
  refine ⟨(classify_response_intent_order _).1 (by decide),
    (classify_response_intent_order _).2.1 (by decide) (by decide),
    (classify_response_intent_order _).2.2.1 (by decide) (by decide) (by decide),
    (classify_response_intent_order _).2.2.2.2 (by decide) (by decide) (by decide)
      (by decide)⟩

/-- C6: get_risk_trend returns none (the "unknown" outcome) when fewer
than 2 snapshots are stored for the customer; otherwise it compares the
two most recent stored risk scores and returns "increasing" when the
delta exceeds 0.1, "decreasing" when it is below -0.1, and "stable"
otherwise. -/
theorem get_risk_trend_spec (m : MemoryStore) (cid : String) :
    ((m.stored_assessments cid).length < 2 → m.get_risk_trend cid = none) ∧
    (∀ rest e2 e1, m.stored_assessments cid = rest ++ [e2, e1] →
      m.get_risk_trend cid =
        (if e1.assessment.risk_score > e2.assessment.risk_score + 1/10 then
          some "increasing"
         else if e1.assessment.risk_score < e2.assessment.risk_score - 1/10 then
          some "decreasing"
         else some "stable")) := by
  constructor
  · intro hlen
    rcases hs : m.stored_assessments cid with _ | ⟨a, _ | ⟨b, rest⟩⟩
    · simp [MemoryStore.get_risk_trend, MemoryStore.get_churn_history, hs]
    · simp [MemoryStore.get_risk_trend, MemoryStore.get_churn_history, hs]
    · rw [hs] at hlen
      simp at hlen
      omega
  · intro rest e2 e1 hs
    rcases rest with _ | ⟨r, rs⟩
    · simp [MemoryStore.get_risk_trend, MemoryStore.get_churn_history, hs]
    · have hdrop : ((r :: rs) ++ [e2, e1]).drop (((r :: rs) ++ [e2, e1]).length - 3) =
          ((r :: rs).drop ((r :: rs).length - 1)) ++ [e2, e1] := by
        rw [List.drop_append_of_le_length (by simp)]
        congr 1
        simp
      simp only [MemoryStore.get_risk_trend, MemoryStore.get_churn_history, hs, hdrop]
      simp [List.reverse_append]

/-- C6 witness: the trend theorem applied to an empty store and to a
store holding snapshots with scores 0.2 then 0.4 (delta 0.2, hence
"increasing"). -/
theorem get_risk_trend_spec_witness :
    MemoryStore.get_risk_trend {} "c1" = none ∧
    memTwoSnaps.get_risk_trend "c1" = some "increasing" := by
  constructor
  · exact (get_risk_trend_spec {} "c1").1
      (by simp [MemoryStore.stored_assessments, dictGet])
  · have h := (get_risk_trend_spec memTwoSnaps "c1").2 []
      { timestamp := 1, assessment := assessSnapshot (1/5) }
      { timestamp := 2, assessment := assessSnapshot (2/5) } rfl
    rw [h]
    simp [assessSnapshot]
    norm_num

/-- C7 counterexample: for a customer with no firing signal the signals
list is the singleton "No significant risk signals detected", not the
"No significant risk patterns detected" sentinel the claim states. -/
theorem assess_churn_risk_sentinel_cex :
    (assess_churn_risk daTwoCore 100 custHealthy).signals =
      ["No significant risk signals detected"] ∧
    (assess_churn_risk daTwoCore 100 custHealthy).signals ≠
      ["No significant risk patterns detected"] := by
  have h := assess_churn_risk_signals_of_calm daTwoCore 100 custHealthy
    custHealthy_calm1 custHealthy_calm2 custHealthy_calm3 custHealthy_calm4
    custHealthy_calm5
  refine ⟨h, ?_⟩
  rw [h]
  simp

/-- C7 (amended): the signals list of assess_churn_risk is never empty,
and when no signal fires it is exactly the single sentinel message
"No significant risk signals detected". -/
theorem assess_churn_risk_signals_nonempty_sentinel (da : DataAccessTool)
    (now : Time) (c : Customer) :
    (assess_churn_risk da now c).signals ≠ [] ∧
    (¬ low_core_adoption da now c → ¬ low_recent_activity now c →
     ¬ many_stale_features now c → ¬ premium_plan_unused da now c →
     ¬ new_customer_low_adoption da now c →
     (assess_churn_risk da now c).signals =
       ["No significant risk signals detected"]) := by
  constructor
  · have key : ∀ s : List String,
        (if s.isEmpty then ["No significant risk signals detected"] else s) ≠ [] := by
      intro s
      split
      · simp
      · rename_i hne
        simpa using hne
    unfold assess_churn_risk
    dsimp only
    exact key _
  · intro h1 h2 h3 h4 h5
    exact assess_churn_risk_signals_of_calm da now c h1 h2 h3 h4 h5

/-- C7 witness: the amended theorem applied to the healthy fixture
customer, for whom no signal fires. -/
theorem assess_churn_risk_signals_nonempty_sentinel_witness :
    (assess_churn_risk daTwoCore 100 custHealthy).signals ≠ [] ∧
    (assess_churn_risk daTwoCore 100 custHealthy).signals =
      ["No significant risk signals detected"] :=
  ⟨(assess_churn_risk_signals_nonempty_sentinel daTwoCore 100 custHealthy).1,
   (assess_churn_risk_signals_nonempty_sentinel daTwoCore 100 custHealthy).2
     custHealthy_calm1 custHealthy_calm2 custHealthy_calm3 custHealthy_calm4
     custHealthy_calm5⟩

/-- C8 counterexample: for an id unknown to the data-access collaborator,
analyze_customer fails, but answer_question returns normally with the
not-found message as its value instead of failing. -/
theorem unknown_customer_cex :
    analyze_customer daTwoCore {} 100 "ghost" =
      .error "Customer ghost not found" ∧
    answer_question daTwoCore {} 100 "ghost" "How are they doing?" =
      .ok ("Customer ghost not found.", {}) := by
  constructor <;> rfl

/-- C8 (amended): for every customer id unknown to the data-access
collaborator, analyze_customer fails with the not-found error, while
answer_question returns normally with the not-found message string
"Customer [id] not found." as its value, leaving memory unchanged. -/
theorem unknown_customer_not_found_behavior (da : DataAccessTool)
    (mem : MemoryStore) (now : Time) (cid q : String)
    (h : da.get_customer cid = none) :
    analyze_customer da mem now cid =
      .error ("Customer " ++ cid ++ " not found") ∧
    answer_question da mem now cid q =
      .ok ("Customer " ++ cid ++ " not found.", mem) := by
  unfold analyze_customer answer_question
  rw [h]
  exact ⟨rfl, rfl⟩

/-- C8 witness: the amended theorem applied to an id absent from the
fixture collaborator. -/
theorem unknown_customer_not_found_behavior_witness :
    analyze_customer daOnlyBeta {} 100 "ghost" =
      .error ("Customer " ++ "ghost" ++ " not found") ∧
    answer_question daOnlyBeta {} 100 "ghost" "status" =
      .ok ("Customer " ++ "ghost" ++ " not found.", {}) :=
  unknown_customer_not_found_behavior daOnlyBeta {} 100 "ghost" "status" rfl

/-- C9: is_adopted is false whenever first_used is unset, regardless of
every other field of the usage record and of the feature's thresholds. -/
theorem is_adopted_false_without_first_used (now : Time) (fid cid : String)
    (lu : Option Time) (ts ta dact : Nat) (uf : ℚ) (feature : Feature) :
    FeatureUsage.is_adopted now
      { feature_id := fid, customer_id := cid, first_used := none, last_used := lu,
        total_sessions := ts, total_actions := ta, days_active := dact,
        usage_frequency := uf } feature = false := rfl

/-- C10: a feature-usage entry whose last use lies more than 30 but at
most 60 days in the past, or whose last_used is unset, contributes to
neither the recent-activity count nor the stale-feature count of
assess_churn_risk. -/
theorem recent_stale_counts_ignore_gap_entry (now : Time)
    (feats : List (String × FeatureUsage)) (fid : String) (u : FeatureUsage)
    (h : u.last_used = none ∨
      ∃ t, u.last_used = some t ∧ 30 < now - t ∧ now - t ≤ 60) :
    recent_stale_counts now ((fid, u) :: feats) = recent_stale_counts now feats := by
  unfold recent_stale_counts
  rcases h with h | ⟨t, ht, h1, h2⟩
  · simp [h]
  · simp only [List.foldl_cons, ht]
    rw [if_neg (not_le.mpr h1), if_neg (not_lt.mpr h2)]

/-- C10 witness: the theorem applied to an entry last used 45 days ago. -/
theorem recent_stale_counts_ignore_gap_entry_witness :
    recent_stale_counts 100 [("fg", usageGap)] = recent_stale_counts 100 [] :=
  recent_stale_counts_ignore_gap_entry 100 [] "fg" usageGap
    (Or.inr ⟨55, rfl, by norm_num, by norm_num⟩)

end AdoptionSystem
